import Mathlib

/-!
Verification development for the vocabulary-quiz bot (`main.py`).

The pipeline is shallowly embedded:

* Python strings are Lean `String`s; the string primitives used by the code
  (`str.strip`, `str.startswith`, `str.endswith`, slicing) are re-implemented
  on the underlying character lists so that everything reduces in the kernel.
* `json.loads` is modelled by an executable strict JSON parser `parseJson`
  (JSON numbers are modelled as integers; floats do not occur in any input
  relevant to the claims).
* `hashlib.md5(...).hexdigest()` is modelled by a full MD5 implementation
  over `Nat` with arithmetic taken modulo `2 ^ 32`, validated against the
  RFC 1321 test vectors.
* The sqlite ledger is modelled in two ways: a pure list of
  `(question_hash, question)` rows for the store semantics, and
  `String → Except StorageErr _` oracles wherever the claims are about
  storage failures.
* Network effects (`requests.post`) are modelled by boolean oracles saying
  whether the chat service accepts the request, plus an explicit list of the
  requests that were issued (`Event`).
* `random.shuffle` is modelled by passing the shuffled list explicitly,
  together with a `List.Perm` hypothesis stating that it is a permutation of
  the original options (the contract of `random.shuffle`).
-/

set_option maxRecDepth 20000

namespace Quiz

/-! ## Python string primitives, re-implemented so they kernel-reduce -/

/-- Whitespace as recognised by `str.strip` on the ASCII inputs we care about. -/
def pyIsSpace (c : Char) : Bool :=
  c == ' ' || c == '\t' || c == '\n' || c == '\r'

/-- `str.strip()`: drop leading and trailing whitespace. -/
def pyStrip (s : String) : String :=
  ⟨((s.data.dropWhile pyIsSpace).reverse.dropWhile pyIsSpace).reverse⟩

/-- Does the second list begin with the first one? -/
def leadsWith : List Char → List Char → Bool
  | [], _ => true
  | _ :: _, [] => false
  | a :: as, b :: bs => a == b && leadsWith as bs

/-- `str.startswith(pat)`. -/
def pyStarts (s pat : String) : Bool :=
  leadsWith pat.data s.data

/-- `str.endswith(pat)`. -/
def pyEnds (s pat : String) : Bool :=
  leadsWith pat.data.reverse s.data.reverse

/-- `s[n:]`: drop the first `n` characters. -/
def pyDrop (s : String) (n : Nat) : String :=
  ⟨s.data.drop n⟩

/-- `s[:-n]`: drop the last `n` characters. -/
def pyDropRight (s : String) (n : Nat) : String :=
  ⟨(s.data.reverse.drop n).reverse⟩

/-! ## JSON values and a model of `json.loads`

The parser is a defunctionalised recursive-descent parser: a single
fuel-indexed step function driving an explicit stack of partially built
containers.  Like `json.loads` it rejects trailing commas and requires the
whole input to be consumed.  Duplicate object keys keep the last value, as
Python `dict` building does.  JSON numbers are modelled as integers; an
input containing a fraction or exponent is out of scope and rejected. -/

inductive JVal where
  | null
  | bool (b : Bool)
  | num (n : Int)
  | str (s : String)
  | arr (xs : List JVal)
  | obj (kvs : List (String × JVal))

/-- Skip JSON whitespace. -/
def skipWs : List Char → List Char
  | [] => []
  | c :: r => if c == ' ' || c == '\t' || c == '\n' || c == '\r' then skipWs r else c :: r

/-- Value of a hex digit, if the character is one. -/
def hexVal (c : Char) : Option Nat :=
  if 48 ≤ c.toNat && c.toNat ≤ 57 then some (c.toNat - 48)
  else if 97 ≤ c.toNat && c.toNat ≤ 102 then some (c.toNat - 87)
  else if 65 ≤ c.toNat && c.toNat ≤ 70 then some (c.toNat - 55)
  else none

/-- Parse the body of a JSON string literal (the opening quote is already
consumed), handling the standard escapes. -/
def parseStrLit : List Char → String → Option (String × List Char)
  | [], _ => none
  | '"' :: rest, acc => some (acc, rest)
  | '\\' :: 'u' :: h1 :: h2 :: h3 :: h4 :: rest, acc =>
    match hexVal h1, hexVal h2, hexVal h3, hexVal h4 with
    | some a, some b, some c, some d =>
      parseStrLit rest (acc.push (Char.ofNat (4096 * a + 256 * b + 16 * c + d)))
    | _, _, _, _ => none
  | '\\' :: e :: rest, acc =>
    if e == '"' then parseStrLit rest (acc.push '"')
    else if e == '\\' then parseStrLit rest (acc.push '\\')
    else if e == '/' then parseStrLit rest (acc.push '/')
    else if e == 'n' then parseStrLit rest (acc.push '\n')
    else if e == 't' then parseStrLit rest (acc.push '\t')
    else if e == 'r' then parseStrLit rest (acc.push '\r')
    else if e == 'b' then parseStrLit rest (acc.push (Char.ofNat 8))
    else if e == 'f' then parseStrLit rest (acc.push (Char.ofNat 12))
    else none
  | c :: rest, acc => parseStrLit rest (acc.push c)

/-- Numeric value of a digit list. -/
def digitsVal (ds : List Char) : Nat :=
  ds.foldl (fun n c => n * 10 + (c.toNat - 48)) 0

/-- Parse a non-negative integer literal; reject it if a fraction or
exponent follows (floats are out of the model's scope). -/
def parseNatNum (cs : List Char) : Option (Nat × List Char) :=
  let ds := cs.takeWhile fun c => c.isDigit
  let rest := cs.dropWhile fun c => c.isDigit
  if ds.isEmpty then none
  else
    match rest with
    | [] => some (digitsVal ds, rest)
    | c :: _ =>
      if c == '.' || c == 'e' || c == 'E' then none else some (digitsVal ds, rest)

/-- Parse a JSON number (integer). -/
def parseNum : List Char → Option (JVal × List Char)
  | '-' :: rest => (parseNatNum rest).map fun p => (JVal.num (-(p.1 : Int)), p.2)
  | cs => (parseNatNum cs).map fun p => (JVal.num (p.1 : Int), p.2)

/-- Insert a key/value pair into an object under construction; a repeated
key overwrites the earlier value, as in a Python `dict`. -/
def objInsert (kvs : List (String × JVal)) (k : String) (v : JVal) :
    List (String × JVal) :=
  if kvs.any (fun p => p.1 == k) then
    kvs.map fun p => if p.1 == k then (k, v) else p
  else kvs ++ [(k, v)]

/-- A partially built container on the parser stack. -/
inductive PFrame where
  | arrAcc (acc : List JVal)
  | objAcc (acc : List (String × JVal)) (key : String)

/-- Parser mode: either expecting a value at the given input, or having just
completed the value `v` with the given input remaining. -/
inductive JMode where
  | val (cs : List Char)
  | done (v : JVal) (cs : List Char)

/-- One fuel-indexed parsing loop: consumes at least one character per
recursive call, so fuel `length + 2` always suffices. -/
def jstep : Nat → JMode → List PFrame → Option JVal
  | 0, _, _ => none
  | fuel + 1, JMode.val cs, stack =>
    match skipWs cs with
    | [] => none
    | 'n' :: 'u' :: 'l' :: 'l' :: rest => jstep fuel (JMode.done JVal.null rest) stack
    | 't' :: 'r' :: 'u' :: 'e' :: rest => jstep fuel (JMode.done (JVal.bool true) rest) stack
    | 'f' :: 'a' :: 'l' :: 's' :: 'e' :: rest => jstep fuel (JMode.done (JVal.bool false) rest) stack
    | '"' :: rest =>
      match parseStrLit rest "" with
      | some (s, r) => jstep fuel (JMode.done (JVal.str s) r) stack
      | none => none
    | '[' :: rest =>
      match skipWs rest with
      | ']' :: r2 => jstep fuel (JMode.done (JVal.arr []) r2) stack
      | r2 => jstep fuel (JMode.val r2) (PFrame.arrAcc [] :: stack)
    | '\x7b' :: rest =>
      match skipWs rest with
      | '\x7d' :: r2 => jstep fuel (JMode.done (JVal.obj []) r2) stack
      | '"' :: r2 =>
        match parseStrLit r2 "" with
        | some (k, r3) =>
          match skipWs r3 with
          | ':' :: r4 => jstep fuel (JMode.val r4) (PFrame.objAcc [] k :: stack)
          | _ => none
        | none => none
      | _ => none
    | cs2 =>
      match parseNum cs2 with
      | some (v, r) => jstep fuel (JMode.done v r) stack
      | none => none
  | fuel + 1, JMode.done v cs, stack =>
    match stack with
    | [] => if (skipWs cs).isEmpty then some v else none
    | PFrame.arrAcc acc :: stk =>
      match skipWs cs with
      | ',' :: r => jstep fuel (JMode.val r) (PFrame.arrAcc (acc ++ [v]) :: stk)
      | ']' :: r => jstep fuel (JMode.done (JVal.arr (acc ++ [v])) r) stk
      | _ => none
    | PFrame.objAcc acc k :: stk =>
      match skipWs cs with
      | ',' :: r =>
        match skipWs r with
        | '"' :: r2 =>
          match parseStrLit r2 "" with
          | some (k2, r3) =>
            match skipWs r3 with
            | ':' :: r4 => jstep fuel (JMode.val r4) (PFrame.objAcc (objInsert acc k v) k2 :: stk)
            | _ => none
          | none => none
        | _ => none
      | '\x7d' :: r => jstep fuel (JMode.done (JVal.obj (objInsert acc k v)) r) stk
      | _ => none

/-- Model of `json.loads`: parse the whole string as one JSON value. -/
def parseJson (s : String) : Option JVal :=
  jstep (s.data.length + 2) (JMode.val s.data) []

example : parseJson "\x7b\"a\":1\x7d" =
    some (JVal.obj [("a", JVal.num 1)]) := rfl

example : parseJson "\x7b\"a\":1,\x7d" = none := rfl

example : parseJson "  [1, true, null, \"x\"] " =
    some (JVal.arr [JVal.num 1, JVal.bool true, JVal.null, JVal.str "x"]) := rfl

example : parseJson "\x7b\"q\": \"Q?\", \"options\": [\"a\",\"b\"], \"n\": -2\x7d" =
    some (JVal.obj
      [("q", JVal.str "Q?"), ("options", JVal.arr [JVal.str "a", JVal.str "b"]),
       ("n", JVal.num (-2))]) := rfl

example : parseJson "not json" = none := rfl

example : parseJson "[1,]" = none := rfl

/-! ## MD5 (`hashlib.md5(...).hexdigest()`) and UTF-8 encoding (`str.encode()`)

A byte is a `Nat` below 256 and a word a `Nat` below `2 ^ 32`; every word
operation reduces its result modulo `2 ^ 32`.  The implementation is
validated against the RFC 1321 test vectors below. -/

/-- `2 ^ 32`. -/
def M32 : Nat := 4294967296

/-- Addition modulo `2 ^ 32`. -/
def add32 (a b : Nat) : Nat := (a + b) % M32

/-- Left rotation of a 32-bit word. -/
def rotl32 (x s : Nat) : Nat := ((x <<< s) % M32) ||| (x >>> (32 - s))

/-- Bitwise complement of a 32-bit word. -/
def not32 (x : Nat) : Nat := x ^^^ 4294967295

/-- UTF-8 encoding of one code point, as `str.encode()` produces. -/
def utf8EncodeChar (c : Char) : List Nat :=
  let n := c.toNat
  if n < 128 then [n]
  else if n < 2048 then [192 ||| (n >>> 6), 128 ||| (n &&& 63)]
  else if n < 65536 then
    [224 ||| (n >>> 12), 128 ||| ((n >>> 6) &&& 63), 128 ||| (n &&& 63)]
  else
    [240 ||| (n >>> 18), 128 ||| ((n >>> 12) &&& 63),
     128 ||| ((n >>> 6) &&& 63), 128 ||| (n &&& 63)]

/-- `str.encode()`: the UTF-8 bytes of a string. -/
def utf8Encode (s : String) : List Nat :=
  (s.data.map utf8EncodeChar).flatten

/-- The 64 MD5 sine-derived constants `K[i]`. -/
def md5K : List Nat :=
  [0xd76aa478, 0xe8c7b756, 0x242070db, 0xc1bdceee,
   0xf57c0faf, 0x4787c62a, 0xa8304613, 0xfd469501,
   0x698098d8, 0x8b44f7af, 0xffff5bb1, 0x895cd7be,
   0x6b901122, 0xfd987193, 0xa679438e, 0x49b40821,
   0xf61e2562, 0xc040b340, 0x265e5a51, 0xe9b6c7aa,
   0xd62f105d, 0x02441453, 0xd8a1e681, 0xe7d3fbc8,
   0x21e1cde6, 0xc33707d6, 0xf4d50d87, 0x455a14ed,
   0xa9e3e905, 0xfcefa3f8, 0x676f02d9, 0x8d2a4c8a,
   0xfffa3942, 0x8771f681, 0x6d9d6122, 0xfde5380c,
   0xa4beea44, 0x4bdecfa9, 0xf6bb4b60, 0xbebfbc70,
   0x289b7ec6, 0xeaa127fa, 0xd4ef3085, 0x04881d05,
   0xd9d4d039, 0xe6db99e5, 0x1fa27cf8, 0xc4ac5665,
   0xf4292244, 0x432aff97, 0xab9423a7, 0xfc93a039,
   0x655b59c3, 0x8f0ccc92, 0xffeff47d, 0x85845dd1,
   0x6fa87e4f, 0xfe2ce6e0, 0xa3014314, 0x4e0811a1,
   0xf7537e82, 0xbd3af235, 0x2ad7d2bb, 0xeb86d391]

/-- The 64 MD5 per-round shift amounts `s[i]`. -/
def md5S : List Nat :=
  [7, 12, 17, 22, 7, 12, 17, 22, 7, 12, 17, 22, 7, 12, 17, 22,
   5, 9, 14, 20, 5, 9, 14, 20, 5, 9, 14, 20, 5, 9, 14, 20,
   4, 11, 16, 23, 4, 11, 16, 23, 4, 11, 16, 23, 4, 11, 16, 23,
   6, 10, 15, 21, 6, 10, 15, 21, 6, 10, 15, 21, 6, 10, 15, 21]

/-- The MD5 round function for step `i`. -/
def md5F (i b c d : Nat) : Nat :=
  if i < 16 then (b &&& c) ||| (not32 b &&& d)
  else if i < 32 then (d &&& b) ||| (not32 d &&& c)
  else if i < 48 then b ^^^ c ^^^ d
  else c ^^^ (b ||| not32 d)

/-- The MD5 message-word index for step `i`. -/
def md5G (i : Nat) : Nat :=
  if i < 16 then i
  else if i < 32 then (5 * i + 1) % 16
  else if i < 48 then (3 * i + 5) % 16
  else (7 * i) % 16

/-- One MD5 step on the state `(a, b, c, d)` with block words `M`. -/
def md5Step (M : List Nat) (st : Nat × Nat × Nat × Nat) (i : Nat) :
    Nat × Nat × Nat × Nat :=
  let x := add32 (add32 (add32 st.1 (md5F i st.2.1 st.2.2.1 st.2.2.2)) (md5K.getD i 0))
    (M.getD (md5G i) 0)
  (st.2.2.2, add32 st.2.1 (rotl32 x (md5S.getD i 0)), st.2.1, st.2.2.1)

/-- Process one 16-word block. -/
def md5Block (st : Nat × Nat × Nat × Nat) (M : List Nat) :
    Nat × Nat × Nat × Nat :=
  let r := (List.range 64).foldl (md5Step M) st
  (add32 st.1 r.1, add32 st.2.1 r.2.1, add32 st.2.2.1 r.2.2.1, add32 st.2.2.2 r.2.2.2)

/-- Group a byte list into little-endian 32-bit words. -/
def toWords : List Nat → List Nat
  | b0 :: b1 :: b2 :: b3 :: rest =>
    (b0 + 256 * b1 + 65536 * b2 + 16777216 * b3) :: toWords rest
  | _ => []

/-- MD5 padding: `0x80`, zeros up to 56 mod 64, then the bit length as eight
little-endian bytes. -/
def md5Pad (msg : List Nat) : List Nat :=
  let len := msg.length
  let z := (64 + 56 - ((len + 1) % 64)) % 64
  msg ++ [128] ++ List.replicate z 0 ++
    ((List.range 8).map fun j => ((8 * len) >>> (8 * j)) % 256)

/-- Split a byte list into blocks of 64, with explicit fuel so the
definition reduces in the kernel. -/
def toBlocks : Nat → List Nat → List (List Nat)
  | _, [] => []
  | 0, _ => []
  | fuel + 1, l => l.take 64 :: toBlocks fuel (l.drop 64)

/-- The four bytes of a word, little-endian. -/
def wordLEBytes (w : Nat) : List Nat :=
  [w % 256, (w >>> 8) % 256, (w >>> 16) % 256, (w >>> 24) % 256]

/-- The 16-byte MD5 digest of a byte list. -/
def md5Digest (msg : List Nat) : List Nat :=
  let padded := md5Pad msg
  let blocks := (toBlocks padded.length padded).map toWords
  let r := blocks.foldl md5Block (0x67452301, 0xefcdab89, 0x98badcfe, 0x10325476)
  wordLEBytes r.1 ++ wordLEBytes r.2.1 ++ wordLEBytes r.2.2.1 ++ wordLEBytes r.2.2.2

/-- Lowercase hex digit. -/
def hexDigit (n : Nat) : Char :=
  Char.ofNat (if n < 10 then 48 + n else 87 + n)

/-- Lowercase hex string of a byte list, as `hexdigest()` returns. -/
def bytesToHex (bs : List Nat) : String :=
  ⟨(bs.map fun b => [hexDigit (b / 16), hexDigit (b % 16)]).flatten⟩

/-- `hashlib.md5(bs).hexdigest()`. -/
def md5Hex (bs : List Nat) : String :=
  bytesToHex (md5Digest bs)

/-- RFC 1321 test vector: the empty message. -/
theorem md5Hex_rfc_empty :
    md5Hex (utf8Encode "") = "d41d8cd98f00b204e9800998ecf8427e" := by decide

/-- RFC 1321 test vector: `"abc"`. -/
theorem md5Hex_rfc_abc :
    md5Hex (utf8Encode "abc") = "900150983cd24fb0d6963f7d28e17f72" := by decide

/-- RFC 1321 test vector with two blocks (80 bytes of digits). -/
theorem md5Hex_rfc_digits :
    md5Hex (utf8Encode
      "12345678901234567890123456789012345678901234567890123456789012345678901234567890")
      = "57edf4a22be3c955ac49da2e2107b67a" := by decide

/-! ## The used-question ledger (`used_mcqs.db`)

`is_mcq_used` / `mark_mcq_used` hash the question text with MD5 and query a
sqlite table whose `question_hash` column is `UNIQUE`, inserting with
`INSERT OR IGNORE`.  The table is modelled as a list of
`(question_hash, question)` rows. -/

/-- `hashlib.md5(question.encode()).hexdigest()`, computed by both
`is_mcq_used` and `mark_mcq_used`. -/
def question_hash (question : String) : String :=
  md5Hex (utf8Encode question)

/-- `is_mcq_used` against a working store: is there a row with this
question's hash? -/
def is_mcq_used_m (store : List (String × String)) (question : String) : Bool :=
  store.any fun r => r.1 == question_hash question

/-- `mark_mcq_used` against a working store: `INSERT OR IGNORE` of the
`(question_hash, question)` row, the hash column being `UNIQUE`. -/
def mark_mcq_used_m (store : List (String × String)) (question : String) :
    List (String × String) :=
  if store.any (fun r => r.1 == question_hash question) then store
  else store ++ [(question_hash question, question)]

/-- A storage-layer failure (e.g. a `sqlite3` I/O error). -/
inductive StorageErr where
  | ioError
deriving DecidableEq

/-! ## MCQ payloads -/

/-- A validated MCQ payload, the shape `call_groq` returns and
`send_poll_to_telegram` consumes (spec section 3). -/
structure MCQ where
  question : String
  options : List String
  correct_index : Nat
  explanation : String
deriving DecidableEq

/-- The fingerprint the dedup layer derives from an MCQ: only the question
text enters the hash. -/
def mcq_fingerprint (m : MCQ) : String :=
  question_hash m.question

/-! ## Python semantics of the schema checks in `call_groq`

The validation in `call_groq` is duck-typed:

    if all(key in mcq_data for key in ["question", "options", "correct_index", "explanation"]):
        if len(mcq_data["options"]) == 4 and 0 <= mcq_data["correct_index"] <= 3:

Each primitive (`in`, subscription, `len`, chained `<=`) is modelled with
Python's behaviour on every JSON value, including the `TypeError`s raised
on values of the wrong type. -/

/-- A Python exception raised by the duck-typed checks. -/
inductive PyErr where
  | typeError
  | keyError
deriving DecidableEq

/-- Is `pat` a contiguous substring of `l`? -/
def listHasInfix : List Char → List Char → Bool
  | pat, [] => pat.isEmpty
  | pat, c :: rest => leadsWith pat (c :: rest) || listHasInfix pat rest

/-- Python `k in v`: key test on dicts, membership on lists, substring test
on strings; `TypeError` on numbers, booleans and `None`. -/
def pyIn (k : String) (v : JVal) : Except PyErr Bool :=
  match v with
  | JVal.obj kvs => Except.ok (kvs.any fun p => p.1 == k)
  | JVal.arr xs =>
    Except.ok (xs.any fun x => match x with | JVal.str s => s == k | _ => false)
  | JVal.str s => Except.ok (listHasInfix k.data s.data)
  | _ => Except.error PyErr.typeError

/-- Python `v[k]` with a string key: lookup on dicts (`KeyError` when the
key is absent), `TypeError` on everything else. -/
def pySubscript (v : JVal) (k : String) : Except PyErr JVal :=
  match v with
  | JVal.obj kvs =>
    match kvs.find? (fun p => p.1 == k) with
    | some p => Except.ok p.2
    | none => Except.error PyErr.keyError
  | _ => Except.error PyErr.typeError

/-- Python `len(v)`: defined on strings, lists and dicts; `TypeError`
otherwise. -/
def pyLen (v : JVal) : Except PyErr Nat :=
  match v with
  | JVal.str s => Except.ok s.length
  | JVal.arr xs => Except.ok xs.length
  | JVal.obj kvs => Except.ok kvs.length
  | _ => Except.error PyErr.typeError

/-- Python `0 <= v <= 3`: comparison is defined on numbers and booleans
(`False`/`True` compare as `0`/`1`, hence always in range); `TypeError`
otherwise. -/
def pyLe03 (v : JVal) : Except PyErr Bool :=
  match v with
  | JVal.num n => Except.ok (decide (0 ≤ n) && decide (n ≤ 3))
  | JVal.bool _ => Except.ok true
  | _ => Except.error PyErr.typeError

/-- The four keys required of a payload. -/
def pyKeys : List String :=
  ["question", "options", "correct_index", "explanation"]

/-- Python `all(key in v for key in ks)`, with short-circuiting. -/
def pyAll (ks : List String) (v : JVal) : Except PyErr Bool :=
  match ks with
  | [] => Except.ok true
  | k :: rest =>
    match pyIn k v with
    | Except.error e => Except.error e
    | Except.ok true => pyAll rest v
    | Except.ok false => Except.ok false

/-- The two nested `if`s of `call_groq` (lines 130-131): `ok true` means the
payload is treated as a valid MCQ, `ok false` means the
"Invalid MCQ format" path, `error` means a raised exception (caught by the
enclosing generic handler). -/
def pyValidate (v : JVal) : Except PyErr Bool :=
  match pyAll pyKeys v with
  | Except.error e => Except.error e
  | Except.ok false => Except.ok false
  | Except.ok true =>
    match pySubscript v "options" with
    | Except.error e => Except.error e
    | Except.ok opts =>
      match pyLen opts with
      | Except.error e => Except.error e
      | Except.ok n =>
        if n == 4 then
          match pySubscript v "correct_index" with
          | Except.error e => Except.error e
          | Except.ok ci =>
            match pyLe03 ci with
            | Except.error e => Except.error e
            | Except.ok inRange => Except.ok inRange
        else Except.ok false

/-! ## `call_groq`: markdown cleanup, parsing, validation, dedup, retry -/

/-- The opening fence marker tested by `content.startswith("```json")`. -/
def fenceOpen : String := "```json"

/-- The closing fence marker tested by `content.endswith("```")`. -/
def fenceClose : String := "```"

/-- Lines 120-127 of `call_groq`: strip the raw content, drop a leading
`` ```json `` marker and a trailing `` ``` `` when present, strip again.
The result is handed directly to `json.loads`. -/
def extractCandidate (raw : String) : String :=
  let content := pyStrip raw
  let content := if pyStarts content fenceOpen then pyDrop content 7 else content
  let content := if pyEnds content fenceClose then pyDropRight content 3 else content
  pyStrip content

/-- The model service's behaviour on one request: a transport-level failure
(timeout, connection error, non-2xx status) or a raw content string. -/
inductive GroqResponse where
  | transportErr
  | ok (content : String)

/-- The outcome of one attempt inside `call_groq`: `some v` when a valid,
unique payload was obtained, `none` on any of the failure paths (transport
error, parse failure, raised or failed validation, non-string question,
storage error during the dedup check, duplicate), each of which makes the
code retry. -/
def attemptResult (resp : GroqResponse)
    (isUsed : String → Except StorageErr Bool) : Option JVal :=
  match resp with
  | GroqResponse.transportErr => none
  | GroqResponse.ok raw =>
    match parseJson (extractCandidate raw) with
    | none => none
    | some v =>
      match pyValidate v with
      | Except.error _ => none
      | Except.ok false => none
      | Except.ok true =>
        match pySubscript v "question" with
        | Except.error _ => none
        | Except.ok qv =>
          match qv with
          | JVal.str q =>
            match isUsed q with
            | Except.error _ => none
            | Except.ok true => none
            | Except.ok false => some v
          | _ => none

/-- `call_groq(attempt)`: return `(none, 0)` once `attempt >= 3`; otherwise
issue one request and either return the payload or recurse with
`attempt + 1`.  The second component counts the model-service requests
made. -/
def call_groq (responses : Nat → GroqResponse)
    (isUsed : String → Except StorageErr Bool) (attempt : Nat) :
    Option JVal × Nat :=
  if _h : 3 ≤ attempt then (none, 0)
  else
    match attemptResult (responses attempt) isUsed with
    | some v => (some v, 1)
    | none =>
      let p := call_groq responses isUsed (attempt + 1)
      (p.1, p.2 + 1)
termination_by 3 - attempt
decreasing_by omega

/-! ## Publishing to the chat service -/

/-- A request issued to the chat service or the ledger, in order. -/
inductive Event where
  | markUsed (question : String)
  | pollRequest (question : String) (options : List String)
      (correct_option_id : Nat) (explanation : String)
  | textRequest (text : String)
deriving DecidableEq

/-- The poll question field: `f"ðŸ“š Vocabulary Boost: {mcq['question']}"`. -/
def pollQuestion (question : String) : String :=
  "ðŸ“š Vocabulary Boost: " ++ question

/-- The formatted fallback text of line 180: question, lettered options,
the correct letter `chr(65 + new_correct_index)`, and the explanation. -/
def fallbackMsg (question : String) (options : List String) (idx : Nat)
    (explanation : String) : String :=
  "<b>ðŸ“š Vocabulary Quiz!</b>\n\n<i>" ++ question ++ "</i>\n\nA) " ++
    options.getD 0 "" ++ "\nB) " ++ options.getD 1 "" ++ "\nC) " ++
    options.getD 2 "" ++ "\nD) " ++ options.getD 3 "" ++
    "\n\n<b>Correct: " ++ String.singleton (Char.ofNat (65 + idx)) ++
    "</b>\n\n<i>" ++ explanation ++ "</i>"

/-- `send_text_to_telegram`: issue the message request; the boolean oracle
says whether the service accepted it. -/
def send_text_to_telegram (textOk : Bool) (text : String) :
    Bool × List Event :=
  (textOk, [Event.textRequest text])

/-- `send_poll_to_telegram`.  `shuffled` is the in-place result of
`random.shuffle(mcq["options"])`; `pollOk` / `textOk` say whether the chat
service accepts the poll / the fallback text.  Returns the boolean result,
the caller's MCQ as it stands after the call (its `options` list was
mutated in place, `correct_index` untouched), and the issued requests.
When `correct_index` is out of range, line 158 raises `IndexError` before
the shuffle; the generic handler returns `False` with nothing sent. -/
def send_poll_to_telegram (pollOk textOk : Bool) (shuffled : List String)
    (mcq : MCQ) : Bool × MCQ × List Event :=
  match mcq.options[mcq.correct_index]? with
  | none => (false, mcq, [])
  | some original_correct =>
    let options := shuffled
    let new_correct_index := options.indexOf original_correct
    let attempt := Event.pollRequest (pollQuestion mcq.question) options
      new_correct_index mcq.explanation
    let mcqAfter := { mcq with options := options }
    if pollOk then (true, mcqAfter, [attempt])
    else
      let t := send_text_to_telegram textOk
        (fallbackMsg mcq.question options new_correct_index mcq.explanation)
      (false, mcqAfter, attempt :: t.2)

/-- The hardcoded fallback MCQ of `generate_and_send_quiz`. -/
def fallback_mcq : MCQ :=
  { question := "What is the synonym of \u0027ephemeral\u0027?"
    options := ["Eternal", "Temporary", "Permanent", "Endless"]
    correct_index := 1
    explanation := "Ephemeral means lasting for a very short time, like a mayfly\u0027s life." }

/-- The perturbed fallback used when the literal fallback was already
marked used. -/
def fallback_mcq_alt : MCQ :=
  { question := "Antonym of \u0027ephemeral\u0027?"
    options := ["Eternal", "Fleeting", "Brief", "Short"]
    correct_index := 0
    explanation := "Ephemeral means short-lived; its antonym is eternal." }

/-- `generate_and_send_quiz`, with the result of `call_groq` abstracted to
`groqResult`.  The ledger operations are oracles that either answer or
raise; a raised storage error is not caught anywhere in this function, so
it propagates (`Except.error`).  On success the returned trace lists the
ledger insert followed by the chat-service requests, in program order. -/
def generate_and_send_quiz (isUsed : String → Except StorageErr Bool)
    (mark : String → Except StorageErr Unit) (groqResult : Option MCQ)
    (pollOk textOk : Bool) (shuffled : List String) :
    Except StorageErr (Bool × List Event) :=
  let pick : Except StorageErr MCQ :=
    match groqResult with
    | some m => Except.ok m
    | none =>
      match isUsed fallback_mcq.question with
      | Except.error e => Except.error e
      | Except.ok true => Except.ok fallback_mcq_alt
      | Except.ok false => Except.ok fallback_mcq
  match pick with
  | Except.error e => Except.error e
  | Except.ok mcq =>
    match mark mcq.question with
    | Except.error e => Except.error e
    | Except.ok _ =>
      let r := send_poll_to_telegram pollOk textOk shuffled mcq
      Except.ok (r.1, Event.markUsed mcq.question :: r.2.2)

/-! ## Concrete oracles used by witnesses -/

/-- A working, empty ledger: every dedup check answers "not used". -/
def storeOkEmpty : String → Except StorageErr Bool := fun _ => Except.ok false

/-- A working ledger insert. -/
def markOk : String → Except StorageErr Unit := fun _ => Except.ok ()

/-- A ledger whose insert raises an I/O error. -/
def markFail : String → Except StorageErr Unit :=
  fun _ => Except.error StorageErr.ioError

/-- A ledger whose dedup check raises an I/O error. -/
def storeFail : String → Except StorageErr Bool :=
  fun _ => Except.error StorageErr.ioError

/-- A model service that fails with a transport error on every request. -/
def allTransportErr : Nat → GroqResponse := fun _ => GroqResponse.transportErr

/-! ## Unfolding lemmas for `call_groq` -/

/-- Once the attempt counter reaches the bound, `call_groq` returns `None`
without issuing a request. -/
theorem call_groq_exhausted (r : Nat → GroqResponse)
    (s : String → Except StorageErr Bool) (a : Nat) (h : 3 ≤ a) :
    call_groq r s a = (none, 0) := by
  unfold call_groq
  simp [h]

/-- Below the bound, a failed attempt recurses with `attempt + 1` after one
request. -/
theorem call_groq_retry (r : Nat → GroqResponse)
    (s : String → Except StorageErr Bool) (a : Nat) (h : a < 3)
    (hf : attemptResult (r a) s = none) :
    call_groq r s a =
      ((call_groq r s (a + 1)).1, (call_groq r s (a + 1)).2 + 1) := by
  conv_lhs => rw [call_groq]
  have h2 : ¬ 3 ≤ a := by omega
  simp [h2, hf]

/-- Below the bound, a successful attempt returns its payload after one
request. -/
theorem call_groq_hit (r : Nat → GroqResponse)
    (s : String → Except StorageErr Bool) (a : Nat) (v : JVal) (h : a < 3)
    (hv : attemptResult (r a) s = some v) :
    call_groq r s a = (some v, 1) := by
  conv_lhs => rw [call_groq]
  have h2 : ¬ 3 ≤ a := by omega
  simp [h2, hv]

/-- The request counter is bounded by the remaining attempt budget. -/
theorem call_groq_count_le (r : Nat → GroqResponse)
    (s : String → Except StorageErr Bool) :
    ∀ n a, 3 - a ≤ n → (call_groq r s a).2 ≤ 3 - a := by
  intro n
  induction n with
  | zero =>
    intro a ha
    have h3 : 3 ≤ a := by omega
    simp [call_groq_exhausted r s a h3]
  | succ n ih =>
    intro a ha
    by_cases h3 : 3 ≤ a
    · simp [call_groq_exhausted r s a h3]
    · have hlt : a < 3 := by omega
      cases hv : attemptResult (r a) s with
      | some v =>
        rw [call_groq_hit r s a v hlt hv]
        omega
      | none =>
        rw [call_groq_retry r s a hlt hv]
        have := ih (a + 1) (by omega)
        simp only []
        omega

/-- C6: the generation retry loop is bounded.  Once the counter reaches the
fixed bound of 3, `call_groq` returns the exhausted signal (`none`) with no
further request; every failed attempt below the bound issues one request,
increments the counter and recurses; every successful attempt stops after
its one request.  Consequently at most `3 - attempt` model-service requests
are ever made (at most 3 from the initial call), and the function is total,
so it terminates on every sequence of model responses. -/
theorem C6_call_groq_bounded (r : Nat → GroqResponse)
    (s : String → Except StorageErr Bool) (a : Nat) :
    (3 ≤ a → call_groq r s a = (none, 0)) ∧
    (call_groq r s a).2 ≤ 3 - a ∧
    (a < 3 → attemptResult (r a) s = none →
      call_groq r s a =
        ((call_groq r s (a + 1)).1, (call_groq r s (a + 1)).2 + 1)) ∧
    (a < 3 → ∀ v, attemptResult (r a) s = some v →
      call_groq r s a = (some v, 1)) :=
  ⟨call_groq_exhausted r s a,
   call_groq_count_le r s (3 - a) a (Nat.le_refl _),
   fun h hf => call_groq_retry r s a h hf,
   fun h v hv => call_groq_hit r s a v h hv⟩

/-- Witness for C6 at a concrete input: a model service that always fails
with a transport error, a working empty ledger, and the initial attempt 0. -/
theorem C6_call_groq_bounded_witness :
    call_groq allTransportErr storeOkEmpty 3 = (none, 0) ∧
    (call_groq allTransportErr storeOkEmpty 0).2 ≤ 3 ∧
    call_groq allTransportErr storeOkEmpty 0 =
      ((call_groq allTransportErr storeOkEmpty 1).1,
        (call_groq allTransportErr storeOkEmpty 1).2 + 1) :=
  ⟨(C6_call_groq_bounded allTransportErr storeOkEmpty 3).1 (by omega),
   (C6_call_groq_bounded allTransportErr storeOkEmpty 0).2.1,
   (C6_call_groq_bounded allTransportErr storeOkEmpty 0).2.2.1 (by omega) rfl⟩

/-! ## Ledger semantics -/

/-- After marking a question used, the dedup check finds it. -/
theorem is_used_after_mark (store : List (String × String)) (q : String) :
    is_mcq_used_m (mark_mcq_used_m store q) q = true := by
  by_cases hc : store.any (fun r => r.1 == question_hash q)
  · simp [is_mcq_used_m, mark_mcq_used_m, hc]
  · simp [is_mcq_used_m, mark_mcq_used_m, hc]

/-- C8: a fresh store answers `false`; a question whose fingerprint was
never inserted answers `false`; immediately after an insert the check
answers `true`; a repeated insert is a no-op, so the check still answers
`true` and the store is unchanged. -/
theorem C8_store_contract (store : List (String × String)) (q : String) :
    is_mcq_used_m [] q = false ∧
    ((∀ r ∈ store, r.1 ≠ question_hash q) → is_mcq_used_m store q = false) ∧
    is_mcq_used_m (mark_mcq_used_m store q) q = true ∧
    mark_mcq_used_m (mark_mcq_used_m store q) q = mark_mcq_used_m store q := by
  refine ⟨rfl, ?_, is_used_after_mark store q, ?_⟩
  · intro hfresh
    simp only [is_mcq_used_m, List.any_eq_false]
    intro r hr
    simpa using hfresh r hr
  · by_cases hc : store.any (fun r => r.1 == question_hash q)
    · rw [show mark_mcq_used_m store q = store from by simp [mark_mcq_used_m, hc]]
      simp [mark_mcq_used_m, hc]
    · have h1 : mark_mcq_used_m store q = store ++ [(question_hash q, q)] := by
        simp [mark_mcq_used_m, hc]
      rw [h1]
      have h2 : (store ++ [(question_hash q, q)]).any
          (fun r => r.1 == question_hash q) = true := by simp
      simp [mark_mcq_used_m, h2]

/-- A one-row store whose hash column cannot collide with the witness
question (its entry is not a 32-character hex digest). -/
def store0 : List (String × String) := [("not-a-hash", "previous question")]

/-- Witness for C8 at a concrete store and question. -/
theorem C8_store_contract_witness :
    is_mcq_used_m store0 "Synonym of ephemeral?" = false ∧
    is_mcq_used_m (mark_mcq_used_m store0 "Synonym of ephemeral?")
      "Synonym of ephemeral?" = true :=
  ⟨(C8_store_contract store0 "Synonym of ephemeral?").2.1 (by decide),
   (C8_store_contract store0 "Synonym of ephemeral?").2.2.1⟩

/-- Two MCQs agreeing on the question but not on options, index or
explanation. -/
def mcq_sameq_a : MCQ :=
  { question := "Pick the synonym of lucid."
    options := ["clear", "murky", "dense", "dim"]
    correct_index := 0
    explanation := "Lucid means clear." }

/-- Same question as `mcq_sameq_a`, everything else different. -/
def mcq_sameq_b : MCQ :=
  { question := "Pick the synonym of lucid."
    options := ["bright", "sharp", "plain", "clear"]
    correct_index := 3
    explanation := "A different explanation." }

/-- C10: the dedup key is the MD5 digest of the exact question text — no
case or whitespace normalisation, options and explanation excluded — and
`is_mcq_used` and `mark_mcq_used` are keyed by that same hash.  Two MCQs
with identical question text share the fingerprint whatever their options;
question texts differing only in case, or only in whitespace, hash
differently and are therefore treated as distinct. -/
theorem C10_fingerprint_key (m1 m2 : MCQ) (store : List (String × String))
    (q : String) :
    question_hash q = md5Hex (utf8Encode q) ∧
    (m1.question = m2.question → mcq_fingerprint m1 = mcq_fingerprint m2) ∧
    is_mcq_used_m store q = store.any (fun r => r.1 == question_hash q) ∧
    mark_mcq_used_m store q =
      (if store.any (fun r => r.1 == question_hash q) then store
       else store ++ [(question_hash q, q)]) ∧
    question_hash "Synonym of ephemeral?" ≠
      question_hash "synonym of ephemeral?" ∧
    question_hash "Synonym of ephemeral?" ≠
      question_hash "Synonym  of ephemeral?" :=
  ⟨rfl,
   fun h => by simp only [mcq_fingerprint, h],
   rfl, rfl, by decide, by decide⟩

/-- Witness for C10: two concrete MCQs that differ everywhere except the
question text get the same fingerprint. -/
theorem C10_fingerprint_key_witness :
    mcq_fingerprint mcq_sameq_a = mcq_fingerprint mcq_sameq_b :=
  (C10_fingerprint_key mcq_sameq_a mcq_sameq_b [] "q").2.1 rfl

/-! ## Structure of `send_poll_to_telegram` -/

/-- Full description of `send_poll_to_telegram` when `correct_index` is in
range: the original correct text is read out before the shuffle, the
options field ends up holding the shuffled list, the poll request carries
`new_correct_index = shuffled.indexOf original_correct`, and on poll
failure the formatted fallback text is sent while `False` is returned. -/
theorem send_poll_structure (pollOk textOk : Bool) (shuffled : List String)
    (mcq : MCQ) (hci : mcq.correct_index < mcq.options.length) :
    send_poll_to_telegram pollOk textOk shuffled mcq =
      (pollOk, { mcq with options := shuffled },
        Event.pollRequest (pollQuestion mcq.question) shuffled
          (shuffled.indexOf (mcq.options.get ⟨mcq.correct_index, hci⟩))
          mcq.explanation ::
        (if pollOk then []
         else [Event.textRequest (fallbackMsg mcq.question shuffled
           (shuffled.indexOf (mcq.options.get ⟨mcq.correct_index, hci⟩))
           mcq.explanation)])) := by
  unfold send_poll_to_telegram
  rw [List.getElem?_eq_getElem hci]
  cases pollOk <;> simp [send_text_to_telegram, List.get_eq_getElem]

/-- C4: with `correct_index` in range and the shuffle producing (as
`random.shuffle` does) a permutation of the options, the published option
list has the same multiset of texts as the original, and the recomputed
correct id — obtained by value lookup `options.index(original_correct)`,
not by the pre-shuffle position — is in range and points at an option text
equal to the text that was at `correct_index` before the shuffle. -/
theorem C4_shuffle_correct_index (mcq : MCQ) (shuffled : List String)
    (pollOk textOk : Bool) (hperm : shuffled.Perm mcq.options)
    (hci : mcq.correct_index < mcq.options.length) :
    ∃ idx,
      (send_poll_to_telegram pollOk textOk shuffled mcq).2.2.head? =
        some (Event.pollRequest (pollQuestion mcq.question) shuffled idx
          mcq.explanation) ∧
      (shuffled : Multiset String) = (mcq.options : Multiset String) ∧
      idx < shuffled.length ∧
      shuffled[idx]? = some (mcq.options.get ⟨mcq.correct_index, hci⟩) := by
  refine ⟨shuffled.indexOf (mcq.options.get ⟨mcq.correct_index, hci⟩), ?_, ?_, ?_, ?_⟩
  · rw [send_poll_structure pollOk textOk shuffled mcq hci]
    rfl
  · exact Multiset.coe_eq_coe.mpr hperm
  · exact List.indexOf_lt_length.mpr (hperm.mem_iff.mpr (List.get_mem _ _ hci))
  · exact List.getElem?_indexOf (hperm.mem_iff.mpr (List.get_mem _ _ hci))

/-- Witness for C4 at a concrete MCQ and shuffle. -/
theorem C4_shuffle_correct_index_witness :
    ∃ idx,
      (send_poll_to_telegram true true
        ["Temporary", "Eternal", "Permanent", "Endless"] fallback_mcq).2.2.head? =
        some (Event.pollRequest (pollQuestion fallback_mcq.question)
          ["Temporary", "Eternal", "Permanent", "Endless"] idx
          fallback_mcq.explanation) ∧
      (["Temporary", "Eternal", "Permanent", "Endless"] : Multiset String) =
        (fallback_mcq.options : Multiset String) ∧
      idx < (["Temporary", "Eternal", "Permanent", "Endless"] : List String).length ∧
      (["Temporary", "Eternal", "Permanent", "Endless"] : List String)[idx]? =
        some (fallback_mcq.options.get ⟨fallback_mcq.correct_index, by decide⟩) :=
  C4_shuffle_correct_index fallback_mcq
    ["Temporary", "Eternal", "Permanent", "Endless"] true true (by decide) (by decide)

/-- C9: `send_poll_to_telegram` mutates its argument in place.  After the
call the caller's MCQ holds the shuffled options while `question`,
`correct_index` and `explanation` are unchanged — exactly the record with
`options` replaced.  Consequently the caller's MCQ can stop satisfying the
invariant that `correct_index` points at the correct text: a concrete run
where it does is exhibited in the second conjunct. -/
theorem C9_send_poll_mutates (mcq : MCQ) (shuffled : List String)
    (pollOk textOk : Bool) (hci : mcq.correct_index < mcq.options.length) :
    (send_poll_to_telegram pollOk textOk shuffled mcq).2.1 =
      { mcq with options := shuffled } ∧
    ∃ m2 sh2, sh2.Perm m2.options ∧ m2.correct_index < m2.options.length ∧
      ((send_poll_to_telegram true true sh2 m2).2.1.options.getD
          (send_poll_to_telegram true true sh2 m2).2.1.correct_index "" ≠
        m2.options.getD m2.correct_index "") := by
  constructor
  · rw [send_poll_structure pollOk textOk shuffled mcq hci]
  · refine ⟨fallback_mcq, ["Temporary", "Eternal", "Permanent", "Endless"],
      by decide, by decide, ?_⟩
    rw [send_poll_structure true true _ fallback_mcq (by decide)]
    decide

/-- Witness for C9 at a concrete MCQ and shuffle. -/
theorem C9_send_poll_mutates_witness :
    (send_poll_to_telegram true true
        ["Temporary", "Eternal", "Permanent", "Endless"] fallback_mcq).2.1 =
      { fallback_mcq with options := ["Temporary", "Eternal", "Permanent", "Endless"] } :=
  (C9_send_poll_mutates fallback_mcq
    ["Temporary", "Eternal", "Permanent", "Endless"] true true (by decide)).1

/-! ## Unfolding lemmas for `generate_and_send_quiz` -/

/-- A fixed concrete shuffle of the fallback options, used in witnesses. -/
def sh0 : List String := ["Temporary", "Eternal", "Permanent", "Endless"]

/-- When `call_groq` produced an MCQ and the ledger insert works, the run
marks the question and then publishes. -/
theorem generate_some_ok (isUsed : String → Except StorageErr Bool)
    (mark : String → Except StorageErr Unit) (mcq : MCQ)
    (pollOk textOk : Bool) (shuffled : List String)
    (hm : mark mcq.question = Except.ok ()) :
    generate_and_send_quiz isUsed mark (some mcq) pollOk textOk shuffled =
      Except.ok ((send_poll_to_telegram pollOk textOk shuffled mcq).1,
        Event.markUsed mcq.question ::
          (send_poll_to_telegram pollOk textOk shuffled mcq).2.2) := by
  show (match mark mcq.question with
    | Except.error e => Except.error e
    | Except.ok _ =>
      Except.ok ((send_poll_to_telegram pollOk textOk shuffled mcq).1,
        Event.markUsed mcq.question ::
          (send_poll_to_telegram pollOk textOk shuffled mcq).2.2)) = _
  rw [hm]

/-- When `call_groq` produced an MCQ and the ledger insert raises, the run
aborts with that error before any publish attempt. -/
theorem generate_some_mark_err (isUsed : String → Except StorageErr Bool)
    (mark : String → Except StorageErr Unit) (mcq : MCQ)
    (pollOk textOk : Bool) (shuffled : List String) (e : StorageErr)
    (hm : mark mcq.question = Except.error e) :
    generate_and_send_quiz isUsed mark (some mcq) pollOk textOk shuffled =
      Except.error e := by
  show (match mark mcq.question with
    | Except.error e => Except.error e
    | Except.ok _ =>
      Except.ok ((send_poll_to_telegram pollOk textOk shuffled mcq).1,
        Event.markUsed mcq.question ::
          (send_poll_to_telegram pollOk textOk shuffled mcq).2.2)) = _
  rw [hm]

/-- When `call_groq` returned `None` and the fallback question is fresh,
the run uses the literal fallback MCQ. -/
theorem generate_none_fresh (isUsed : String → Except StorageErr Bool)
    (mark : String → Except StorageErr Unit) (pollOk textOk : Bool)
    (shuffled : List String)
    (hu : isUsed fallback_mcq.question = Except.ok false)
    (hm : mark fallback_mcq.question = Except.ok ()) :
    generate_and_send_quiz isUsed mark none pollOk textOk shuffled =
      Except.ok ((send_poll_to_telegram pollOk textOk shuffled fallback_mcq).1,
        Event.markUsed fallback_mcq.question ::
          (send_poll_to_telegram pollOk textOk shuffled fallback_mcq).2.2) := by
  unfold generate_and_send_quiz
  rw [hu]
  show (match mark fallback_mcq.question with
    | Except.error e => Except.error e
    | Except.ok _ =>
      Except.ok ((send_poll_to_telegram pollOk textOk shuffled fallback_mcq).1,
        Event.markUsed fallback_mcq.question ::
          (send_poll_to_telegram pollOk textOk shuffled fallback_mcq).2.2)) = _
  rw [hm]

/-- When `call_groq` returned `None` and the fallback question was already
used, the run uses the perturbed fallback MCQ. -/
theorem generate_none_dup (isUsed : String → Except StorageErr Bool)
    (mark : String → Except StorageErr Unit) (pollOk textOk : Bool)
    (shuffled : List String)
    (hu : isUsed fallback_mcq.question = Except.ok true)
    (hm : mark fallback_mcq_alt.question = Except.ok ()) :
    generate_and_send_quiz isUsed mark none pollOk textOk shuffled =
      Except.ok ((send_poll_to_telegram pollOk textOk shuffled fallback_mcq_alt).1,
        Event.markUsed fallback_mcq_alt.question ::
          (send_poll_to_telegram pollOk textOk shuffled fallback_mcq_alt).2.2) := by
  unfold generate_and_send_quiz
  rw [hu]
  show (match mark fallback_mcq_alt.question with
    | Except.error e => Except.error e
    | Except.ok _ =>
      Except.ok ((send_poll_to_telegram pollOk textOk shuffled fallback_mcq_alt).1,
        Event.markUsed fallback_mcq_alt.question ::
          (send_poll_to_telegram pollOk textOk shuffled fallback_mcq_alt).2.2)) = _
  rw [hm]

/-- When `call_groq` returned `None` and the fallback dedup check raises,
the run aborts with that error before any publish attempt. -/
theorem generate_none_store_err (isUsed : String → Except StorageErr Bool)
    (mark : String → Except StorageErr Unit) (pollOk textOk : Bool)
    (shuffled : List String) (e : StorageErr)
    (hu : isUsed fallback_mcq.question = Except.error e) :
    generate_and_send_quiz isUsed mark none pollOk textOk shuffled =
      Except.error e := by
  unfold generate_and_send_quiz
  rw [hu]

/-! ## C1: overall result when the poll send fails -/

/-- C1 counterexample: with the poll send rejected and the fallback text
accepted (`pollOk = false`, `textOk = true`), `send_poll_to_telegram`
returns `False` — the claim says it would return `True` — and
`generate_and_send_quiz` accordingly reports failure. -/
theorem C1_cex_poll_fail_text_ok :
    (send_poll_to_telegram false true sh0 fallback_mcq).1 = false ∧
    Except.map Prod.fst
      (generate_and_send_quiz storeOkEmpty markOk (some fallback_mcq)
        false true sh0) = Except.ok false :=
  ⟨rfl, rfl⟩

/-- C1 (amended): when the poll send fails, the formatted text fallback
(question, lettered options, the correct letter, the explanation) is sent,
but its result is discarded: `send_poll_to_telegram` returns `False`
whatever the fallback outcome, and `generate_and_send_quiz` therefore
reports failure even when the fallback text was accepted.  Overall success
is reported only when the poll itself is accepted. -/
theorem C1_poll_failure_reports_false (textOk : Bool) (mcq : MCQ)
    (shuffled : List String) (isUsed : String → Except StorageErr Bool)
    (mark : String → Except StorageErr Unit)
    (hci : mcq.correct_index < mcq.options.length)
    (hmark : mark mcq.question = Except.ok ()) :
    (send_poll_to_telegram false textOk shuffled mcq).1 = false ∧
    Event.textRequest (fallbackMsg mcq.question shuffled
        (shuffled.indexOf (mcq.options.get ⟨mcq.correct_index, hci⟩))
        mcq.explanation) ∈
      (send_poll_to_telegram false textOk shuffled mcq).2.2 ∧
    Except.map Prod.fst
      (generate_and_send_quiz isUsed mark (some mcq) false textOk shuffled) =
      Except.ok false := by
  have hs := send_poll_structure false textOk shuffled mcq hci
  refine ⟨?_, ?_, ?_⟩
  · rw [hs]
  · rw [hs]
    simp
  · rw [generate_some_ok isUsed mark mcq false textOk shuffled hmark, hs]
    rfl

/-- Witness for the amended C1 at a concrete MCQ, shuffle and oracles. -/
theorem C1_poll_failure_reports_false_witness :
    (send_poll_to_telegram false true sh0 fallback_mcq).1 = false ∧
    Event.textRequest (fallbackMsg fallback_mcq.question sh0
        (sh0.indexOf (fallback_mcq.options.get
          ⟨fallback_mcq.correct_index, by decide⟩))
        fallback_mcq.explanation) ∈
      (send_poll_to_telegram false true sh0 fallback_mcq).2.2 ∧
    Except.map Prod.fst
      (generate_and_send_quiz storeOkEmpty markOk (some fallback_mcq)
        false true sh0) = Except.ok false :=
  C1_poll_failure_reports_false true fallback_mcq sh0 storeOkEmpty markOk
    (by decide) rfl

/-! ## C3: storage-layer errors -/

/-- C3 counterexample: a storage error raised by the ledger insert aborts
`generate_and_send_quiz` before the send attempt — the run crashes with the
error instead of proceeding to publish. -/
theorem C3_cex_storage_error_aborts :
    generate_and_send_quiz storeOkEmpty markFail (some fallback_mcq)
      true true sh0 = Except.error StorageErr.ioError :=
  generate_some_mark_err storeOkEmpty markFail fallback_mcq true true sh0
    StorageErr.ioError rfl

/-- A dedup check that always raises makes every attempt inside
`call_groq` fail (the exception is caught by the generic handler and
treated as one more failed attempt). -/
theorem attemptResult_store_err (resp : GroqResponse) (e : StorageErr) :
    attemptResult resp (fun _ => Except.error e) = none := by
  cases resp with
  | transportErr => rfl
  | ok raw =>
    simp only [attemptResult]
    repeat' split
    all_goals rfl

/-- With an always-raising dedup check, `call_groq` still returns (with the
exhausted signal) rather than crashing. -/
theorem call_groq_none_of_store_err (r : Nat → GroqResponse) (e : StorageErr) :
    ∀ n a, 3 - a ≤ n → (call_groq r (fun _ => Except.error e) a).1 = none := by
  intro n
  induction n with
  | zero =>
    intro a ha
    have h3 : 3 ≤ a := by omega
    simp [call_groq_exhausted r _ a h3]
  | succ n ih =>
    intro a ha
    by_cases h3 : 3 ≤ a
    · simp [call_groq_exhausted r _ a h3]
    · have hlt : a < 3 := by omega
      rw [call_groq_retry r _ a hlt (attemptResult_store_err (r a) e)]
      exact ih (a + 1) (by omega)

/-- C3 (amended): a storage error raised during the dedup check inside the
generation loop is caught by the generic handler — the attempt counts as
failed and `call_groq` still terminates normally — but storage errors
raised in `generate_and_send_quiz` itself (the fallback duplicate check or
marking the question used) are not caught: they propagate and abort the
run before any send attempt. -/
theorem C3_storage_error_handling (resp : GroqResponse)
    (r : Nat → GroqResponse) (e : StorageErr)
    (isUsed : String → Except StorageErr Bool)
    (mark : String → Except StorageErr Unit) (mcq : MCQ)
    (pollOk textOk : Bool) (shuffled : List String) :
    attemptResult resp (fun _ => Except.error e) = none ∧
    (call_groq r (fun _ => Except.error e) 0).1 = none ∧
    (mark mcq.question = Except.error e →
      generate_and_send_quiz isUsed mark (some mcq) pollOk textOk shuffled =
        Except.error e) ∧
    (isUsed fallback_mcq.question = Except.error e →
      generate_and_send_quiz isUsed mark none pollOk textOk shuffled =
        Except.error e) :=
  ⟨attemptResult_store_err resp e,
   call_groq_none_of_store_err r e 3 0 (by omega),
   fun hm => generate_some_mark_err isUsed mark mcq pollOk textOk shuffled e hm,
   fun hu => generate_none_store_err isUsed mark pollOk textOk shuffled e hu⟩

/-- Witness for the amended C3 at concrete oracles. -/
theorem C3_storage_error_handling_witness :
    attemptResult GroqResponse.transportErr storeFail = none ∧
    (call_groq allTransportErr storeFail 0).1 = none ∧
    generate_and_send_quiz storeOkEmpty markFail (some fallback_mcq_alt)
      true true sh0 = Except.error StorageErr.ioError ∧
    generate_and_send_quiz storeFail markOk none true true sh0 =
      Except.error StorageErr.ioError :=
  ⟨(C3_storage_error_handling GroqResponse.transportErr allTransportErr
      StorageErr.ioError storeOkEmpty markFail fallback_mcq_alt true true sh0).1,
   (C3_storage_error_handling GroqResponse.transportErr allTransportErr
      StorageErr.ioError storeOkEmpty markFail fallback_mcq_alt true true sh0).2.1,
   (C3_storage_error_handling GroqResponse.transportErr allTransportErr
      StorageErr.ioError storeOkEmpty markFail fallback_mcq_alt true true sh0).2.2.1 rfl,
   (C3_storage_error_handling GroqResponse.transportErr allTransportErr
      StorageErr.ioError storeFail markOk fallback_mcq_alt true true sh0).2.2.2 rfl⟩

/-! ## C5: the fingerprint is recorded before the publish attempt -/

/-- C5: whenever `generate_and_send_quiz` completes (with either overall
result), its trace starts with the ledger insert of the published MCQ's
question, and the poll publish attempt for that same question appears only
afterwards: the fingerprint is recorded strictly before the publish
attempt, for generated and fallback MCQs alike, so a later publish failure
cannot leave the question unrecorded. -/
theorem C5_mark_precedes_publish (isUsed : String → Except StorageErr Bool)
    (mark : String → Except StorageErr Unit) (groqResult : Option MCQ)
    (pollOk textOk : Bool) (shuffled : List String) (b : Bool)
    (trace : List Event)
    (hvalid : ∀ m, groqResult = some m → m.correct_index < m.options.length)
    (h : generate_and_send_quiz isUsed mark groqResult pollOk textOk shuffled =
      Except.ok (b, trace)) :
    ∃ q idx ex rest, trace = Event.markUsed q :: rest ∧
      Event.pollRequest (pollQuestion q) shuffled idx ex ∈ rest := by
  cases groqResult with
  | some m =>
    have hci : m.correct_index < m.options.length := hvalid m rfl
    cases hmark : mark m.question with
    | error e =>
      rw [generate_some_mark_err isUsed mark m pollOk textOk shuffled e hmark] at h
      exact absurd h (by simp)
    | ok u =>
      cases u
      rw [generate_some_ok isUsed mark m pollOk textOk shuffled hmark,
        send_poll_structure pollOk textOk shuffled m hci] at h
      simp only [Except.ok.injEq, Prod.mk.injEq] at h
      refine ⟨m.question,
        shuffled.indexOf (m.options.get ⟨m.correct_index, hci⟩),
        m.explanation, _, h.2.symm, ?_⟩
      simp
  | none =>
    cases hu : isUsed fallback_mcq.question with
    | error e =>
      rw [generate_none_store_err isUsed mark pollOk textOk shuffled e hu] at h
      exact absurd h (by simp)
    | ok used =>
      cases used with
      | true =>
        have hci : fallback_mcq_alt.correct_index <
            fallback_mcq_alt.options.length := by decide
        cases hmark : mark fallback_mcq_alt.question with
        | error e =>
          have := generate_none_dup isUsed mark pollOk textOk shuffled hu
          rw [show generate_and_send_quiz isUsed mark none pollOk textOk shuffled =
              Except.error e from ?_] at h
          · exact absurd h (by simp)
          · unfold generate_and_send_quiz
            rw [hu]
            show (match mark fallback_mcq_alt.question with
              | Except.error e => Except.error e
              | Except.ok _ =>
                Except.ok ((send_poll_to_telegram pollOk textOk shuffled fallback_mcq_alt).1,
                  Event.markUsed fallback_mcq_alt.question ::
                    (send_poll_to_telegram pollOk textOk shuffled fallback_mcq_alt).2.2)) = _
            rw [hmark]
        | ok u =>
          cases u
          rw [generate_none_dup isUsed mark pollOk textOk shuffled hu hmark,
            send_poll_structure pollOk textOk shuffled fallback_mcq_alt hci] at h
          simp only [Except.ok.injEq, Prod.mk.injEq] at h
          refine ⟨fallback_mcq_alt.question,
            shuffled.indexOf (fallback_mcq_alt.options.get
              ⟨fallback_mcq_alt.correct_index, hci⟩),
            fallback_mcq_alt.explanation, _, h.2.symm, ?_⟩
          simp
      | false =>
        have hci : fallback_mcq.correct_index <
            fallback_mcq.options.length := by decide
        cases hmark : mark fallback_mcq.question with
        | error e =>
          rw [show generate_and_send_quiz isUsed mark none pollOk textOk shuffled =
              Except.error e from ?_] at h
          · exact absurd h (by simp)
          · unfold generate_and_send_quiz
            rw [hu]
            show (match mark fallback_mcq.question with
              | Except.error e => Except.error e
              | Except.ok _ =>
                Except.ok ((send_poll_to_telegram pollOk textOk shuffled fallback_mcq).1,
                  Event.markUsed fallback_mcq.question ::
                    (send_poll_to_telegram pollOk textOk shuffled fallback_mcq).2.2)) = _
            rw [hmark]
        | ok u =>
          cases u
          rw [generate_none_fresh isUsed mark pollOk textOk shuffled hu hmark,
            send_poll_structure pollOk textOk shuffled fallback_mcq hci] at h
          simp only [Except.ok.injEq, Prod.mk.injEq] at h
          refine ⟨fallback_mcq.question,
            shuffled.indexOf (fallback_mcq.options.get
              ⟨fallback_mcq.correct_index, hci⟩),
            fallback_mcq.explanation, _, h.2.symm, ?_⟩
          simp

/-- Witness for C5 at a concrete run (poll send failing, so the publish
attempt indeed fails after the mark). -/
theorem C5_mark_precedes_publish_witness :
    ∃ q idx ex rest,
      (Except.ok (false,
        Event.markUsed fallback_mcq.question ::
          (send_poll_to_telegram false true sh0 fallback_mcq).2.2) :
            Except StorageErr (Bool × List Event)) =
        Except.ok ((false : Bool),
          (Event.markUsed q :: rest : List Event)) ∧
      Event.pollRequest (pollQuestion q) sh0 idx ex ∈ rest := by
  obtain ⟨q, idx, ex, rest, h1, h2⟩ :=
    C5_mark_precedes_publish storeOkEmpty markOk (some fallback_mcq)
      false true sh0 false
      (Event.markUsed fallback_mcq.question ::
        (send_poll_to_telegram false true sh0 fallback_mcq).2.2)
      (fun m hm => by cases hm; decide)
      (generate_some_ok storeOkEmpty markOk fallback_mcq false true sh0 rfl)
  exact ⟨q, idx, ex, rest, by rw [h1], h2⟩

/-! ## C2: what the extraction step actually does -/

/-- C2 counterexample: a brace-delimited object with a trailing comma and
no code fences passes through extraction unchanged — the trailing comma is
not stripped, the candidate differs from the repaired form the claim
predicts, and `json.loads` rejects it. -/
theorem C2_cex_no_comma_repair :
    extractCandidate " \x7b\"a\":1,\x7d " = "\x7b\"a\":1,\x7d" ∧
    extractCandidate "\x7b\"a\":1,\x7d" ≠ "\x7b\"a\":1\x7d" ∧
    parseJson (extractCandidate "\x7b\"a\":1,\x7d") = none :=
  ⟨rfl, by decide, rfl⟩

/-- C2 (amended): extraction consists only of stripping whitespace,
dropping a leading `` ```json `` marker when the stripped content starts
with one, and dropping a trailing `` ``` `` when it ends with one.  There
is no first-`` { ``-to-last-`` } `` substring step and no trailing-comma
repair: fence-free content reaches `json.loads` unchanged, so an object
with a trailing comma fails to parse and the attempt is retried. -/
theorem C2_extraction_is_fence_stripping (s : String)
    (isUsed : String → Except StorageErr Bool) (hs : pyStrip s = s)
    (h1 : pyStarts s fenceOpen = false) (h2 : pyEnds s fenceClose = false) :
    extractCandidate s = s ∧
    extractCandidate " ```json\n\x7b\"a\": 1\x7d\n``` " = "\x7b\"a\": 1\x7d" ∧
    attemptResult (GroqResponse.ok "\x7b\"a\":1,\x7d") isUsed = none := by
  refine ⟨?_, rfl, rfl⟩
  simp [extractCandidate, hs, h1, h2]

/-- Witness for the amended C2: the fence-free trailing-comma object. -/
theorem C2_extraction_is_fence_stripping_witness :
    extractCandidate "\x7b\"a\":1,\x7d" = "\x7b\"a\":1,\x7d" ∧
    extractCandidate " ```json\n\x7b\"a\": 1\x7d\n``` " = "\x7b\"a\": 1\x7d" ∧
    attemptResult (GroqResponse.ok "\x7b\"a\":1,\x7d") storeOkEmpty = none :=
  C2_extraction_is_fence_stripping "\x7b\"a\":1,\x7d" storeOkEmpty rfl rfl rfl

/-! ## C7: the duck-typed schema validation -/

/-- Is a key present in an object's entry list? -/
def hasKey (kvs : List (String × JVal)) (k : String) : Bool :=
  kvs.any fun p => p.1 == k

/-- On a dict, the `all(key in ...)` loop never raises and computes the
conjunction of the key tests. -/
theorem pyAll_obj (ks : List String) (kvs : List (String × JVal)) :
    pyAll ks (JVal.obj kvs) = Except.ok (ks.all fun k => hasKey kvs k) := by
  induction ks with
  | nil => rfl
  | cons k rest ih =>
    show (match pyIn k (JVal.obj kvs) with
      | Except.error e => Except.error e
      | Except.ok true => pyAll rest (JVal.obj kvs)
      | Except.ok false => Except.ok false) = _
    by_cases hk : hasKey kvs k = true
    · rw [show pyIn k (JVal.obj kvs) = Except.ok (hasKey kvs k) from rfl, hk, ih]
      simp [List.all_cons, hk]
    · have hk2 : hasKey kvs k = false := by simpa using hk
      rw [show pyIn k (JVal.obj kvs) = Except.ok (hasKey kvs k) from rfl, hk2]
      simp [List.all_cons, hk2]

/-- A parsed payload on which the validation raises: all four keys present,
four options, but `correct_index` is the string `"2"`, so the chained
comparison `0 <= mcq_data["correct_index"] <= 3` raises `TypeError`. -/
def badPayload : JVal :=
  JVal.obj
    [("question", JVal.str "Pick the synonym of lucid."),
     ("options", JVal.arr [JVal.str "clear", JVal.str "murky",
        JVal.str "dense", JVal.str "dim"]),
     ("correct_index", JVal.str "2"),
     ("explanation", JVal.str "Lucid means clear.")]

/-- C7 counterexample: the validation raises `TypeError` on a parsed
payload whose `correct_index` is a string, contradicting "never raises on
any parsed payload".  (The exception is caught by `call_groq`'s generic
handler, which turns it into a retry.) -/
theorem C7_cex_validation_raises :
    pyValidate badPayload = Except.error PyErr.typeError := rfl

/-- C7 (amended): on dict payloads the checks behave as claimed — a payload
missing one of the four keys is rejected, one whose options list does not
have exactly 4 entries is rejected, one whose integer correct index lies
outside `[0, 3]` is rejected, and a well-formed payload with 4 options and
an in-range integer index is accepted; moreover validation returns a
result without raising whenever `options` is a list and `correct_index` an
integer.  On other parsed payloads (non-dicts, non-sized options,
non-numeric indices) validation can raise `TypeError`, which `call_groq`'s
generic handler converts into a retry. -/
theorem C7_validation_checks (kvs : List (String × JVal)) (opts : List JVal)
    (n : Int) (k : String) :
    (k ∈ pyKeys → hasKey kvs k = false →
      pyValidate (JVal.obj kvs) = Except.ok false) ∧
    (pySubscript (JVal.obj kvs) "options" = Except.ok (JVal.arr opts) →
      opts.length ≠ 4 → pyValidate (JVal.obj kvs) = Except.ok false) ∧
    ((pyKeys.all fun k2 => hasKey kvs k2) = true →
      pySubscript (JVal.obj kvs) "options" = Except.ok (JVal.arr opts) →
      opts.length = 4 →
      pySubscript (JVal.obj kvs) "correct_index" = Except.ok (JVal.num n) →
      (n < 0 ∨ 3 < n) → pyValidate (JVal.obj kvs) = Except.ok false) ∧
    ((pyKeys.all fun k2 => hasKey kvs k2) = true →
      pySubscript (JVal.obj kvs) "options" = Except.ok (JVal.arr opts) →
      opts.length = 4 →
      pySubscript (JVal.obj kvs) "correct_index" = Except.ok (JVal.num n) →
      0 ≤ n → n ≤ 3 → pyValidate (JVal.obj kvs) = Except.ok true) ∧
    (pySubscript (JVal.obj kvs) "options" = Except.ok (JVal.arr opts) →
      pySubscript (JVal.obj kvs) "correct_index" = Except.ok (JVal.num n) →
      ∃ b, pyValidate (JVal.obj kvs) = Except.ok b) := by
  have hval : ∀ hall : (pyKeys.all fun k2 => hasKey kvs k2) = true,
      pyValidate (JVal.obj kvs) =
        (match pySubscript (JVal.obj kvs) "options" with
          | Except.error e => Except.error e
          | Except.ok opts2 =>
            match pyLen opts2 with
            | Except.error e => Except.error e
            | Except.ok m =>
              if m == 4 then
                match pySubscript (JVal.obj kvs) "correct_index" with
                | Except.error e => Except.error e
                | Except.ok ci =>
                  match pyLe03 ci with
                  | Except.error e => Except.error e
                  | Except.ok inRange => Except.ok inRange
              else Except.ok false) := by
    intro hall
    unfold pyValidate
    rw [pyAll_obj, hall]
  refine ⟨?_, ?_, ?_, ?_, ?_⟩
  · intro hk hfalse
    have hall : (pyKeys.all fun k2 => hasKey kvs k2) = false := by
      cases h : pyKeys.all fun k2 => hasKey kvs k2 with
      | false => rfl
      | true => exact absurd (List.all_eq_true.mp h k hk) (by simp [hfalse])
    unfold pyValidate
    rw [pyAll_obj, hall]
  · intro hopts hlen
    cases hall : pyKeys.all fun k2 => hasKey kvs k2 with
    | false =>
      unfold pyValidate
      rw [pyAll_obj, hall]
    | true =>
      rw [hval hall, hopts]
      show (if opts.length == 4 then _ else Except.ok false) = Except.ok false
      rw [show (opts.length == 4) = false from by simpa using hlen]
      rfl
  · intro hall hopts _hlen hci hout
    rw [hval hall, hopts, hci]
    show (if opts.length == 4 then
      Except.ok (decide (0 ≤ n) && decide (n ≤ 3)) else Except.ok false) = _
    rcases hout with hneg | hbig
    · cases h4 : opts.length == 4 <;>
        simp [show ¬ (0 ≤ n) from by omega]
    · cases h4 : opts.length == 4 <;>
        simp [show ¬ (n ≤ 3) from by omega]
  · intro hall hopts hlen hci h0 h3
    rw [hval hall, hopts, hci]
    show (if opts.length == 4 then
      Except.ok (decide (0 ≤ n) && decide (n ≤ 3)) else Except.ok false) = _
    rw [show (opts.length == 4) = true from by simpa using hlen]
    simp [h0, h3]
  · intro hopts hci
    cases hall : pyKeys.all fun k2 => hasKey kvs k2 with
    | false =>
      refine ⟨false, ?_⟩
      unfold pyValidate
      rw [pyAll_obj, hall]
    | true =>
      rw [hval hall, hopts, hci]
      show ∃ b, (if opts.length == 4 then
        Except.ok (decide (0 ≤ n) && decide (n ≤ 3)) else Except.ok false) =
          Except.ok b
      cases opts.length == 4
      · exact ⟨false, rfl⟩
      · exact ⟨decide (0 ≤ n) && decide (n ≤ 3), rfl⟩

/-- The entry list of a well-formed payload (4 options, index 2). -/
def goodKvs : List (String × JVal) :=
  [("question", JVal.str "Pick the synonym of lucid."),
   ("options", JVal.arr [JVal.str "clear", JVal.str "murky",
      JVal.str "dense", JVal.str "dim"]),
   ("correct_index", JVal.num 2),
   ("explanation", JVal.str "Lucid means clear.")]

/-- The same payload with `explanation` missing. -/
def noExplKvs : List (String × JVal) :=
  [("question", JVal.str "Pick the synonym of lucid."),
   ("options", JVal.arr [JVal.str "clear", JVal.str "murky",
      JVal.str "dense", JVal.str "dim"]),
   ("correct_index", JVal.num 2)]

/-- Witness for the amended C7: the well-formed payload is accepted and the
payload missing `explanation` is rejected, both without raising. -/
theorem C7_validation_checks_witness :
    pyValidate (JVal.obj goodKvs) = Except.ok true ∧
    pyValidate (JVal.obj noExplKvs) = Except.ok false :=
  ⟨(C7_validation_checks goodKvs
      [JVal.str "clear", JVal.str "murky", JVal.str "dense", JVal.str "dim"]
      2 "explanation").2.2.2.1 rfl rfl rfl rfl (by decide) (by decide),
   (C7_validation_checks noExplKvs
      [JVal.str "clear", JVal.str "murky", JVal.str "dense", JVal.str "dim"]
      2 "explanation").1 (by decide) rfl⟩

end Quiz
